import Mathlib

/-!
Verification development for the elephant-vm repository: a shallow embedding
of its scanner (src/scanner.rs), Pratt compiler (src/compiler.rs), value and
table representation (src/value.rs, src/table.rs), bytecode chunks
(src/chunk.rs) and stack VM (src/vm.rs), together with theorems settling the
frozen claims about the program.

Modelling conventions, used throughout and noted again at each definition
where they matter:

* Rust `f64` is modelled by exact fractions (the `F64` structure below).
  No claim under consideration depends on IEEE rounding, NaN, infinities or
  float formatting; the numeric literals appearing in the claims (small
  integers) are represented exactly in both models.
* Rust `String` is modelled by its character sequence (`List Char`), with
  the byte length of its UTF-8 encoding (`srcByteLen`) computed wherever the
  source calls `source.len()` (a byte count).  The scanner advances its
  cursor `current` once per *character* (`source.chars().nth(current)`) yet
  `is_at_end` compares that cursor against the *byte* length; the model
  keeps this mixing exactly.  On a source with multibyte characters the
  cursor can run past the last character while still below the byte length:
  there `peek`/`advance` return `'\0'` (the source's `unwrap_or('\0')`) and
  `match_char` panics (a bare `unwrap()`), modelled by the scanner's
  `crashed` flag.  The byte-range slicing of `check_keyword` (and the
  compiler's lexeme slicing) is modelled over characters; the two coincide
  exactly whenever every character before the cursor is ASCII, which holds
  on every input on which a theorem below evaluates them (see
  `Scanner.check_keyword`).
* `u8` arithmetic on the VM's instruction pointer is modelled with
  wrap-around (`% 256`), i.e. release-mode Rust semantics; the spec itself
  speaks of the 8-bit ip "wrapping".
* Rust panics (`panic!`, `unwrap()` on `None`, out-of-bounds indexing) are
  modelled as a `crashed` outcome carrying the panic message where that
  message matters (`"unknown instruction"`), or a descriptive placeholder.
* Debug `println!` calls in the source (the `constant: {:?}` trace in the
  VM, the traces in `identifiers_equal`/`named_variable`, the disassembler
  run by `end_compiler`) are not modelled; the modelled output stream
  contains exactly the values printed by `print_value` + newline and the
  runtime-error reports, which is what the claims speak about.
* Every Rust loop is compiled to a structurally recursive helper taking an
  iteration bound computed at entry.  Each bound is justified at its
  definition: every loop of the scanner advances `current` by at least one
  per iteration while `current` stays at most the source's byte length
  (`advance` only steps below it), so `srcByteLen source + 1 - current`
  iterations always suffice and the helper equals the source's unbounded
  loop.  The
  compiler's and VM's recursion is driven by explicit fuel; concrete
  theorems evaluate at fuel large enough for the input, and fuel exhaustion
  is a distinguished outcome (`fuel_out` / `.outOfFuel`), never silently
  conflated with the program's own behaviour.
-/

namespace ElephantVM

/-- 64-bit IEEE-754 doubles (`f64`) modelled as exact (unreduced) fractions
`num / den`; see the module comment.  All values the claims exercise are
small integers, represented exactly as `⟨n, 1⟩`; arithmetic is exact
fraction arithmetic (every decimal literal and every `+ - *` result the
claims touch is exact in both models), and `den` stays positive except
through a division by zero, which no claim exercises (IEEE would produce
±inf/NaN there; see `F64.div`). -/
structure F64 where
  num : Int
  den : Nat
deriving DecidableEq, Repr

instance (n : Nat) : OfNat F64 n := ⟨⟨Int.ofNat n, 1⟩⟩

instance : Neg F64 := ⟨fun a => ⟨-a.num, a.den⟩⟩

/-- Exact fraction addition. -/
def F64.add (a b : F64) : F64 := ⟨a.num * b.den + b.num * a.den, a.den * b.den⟩

/-- Exact fraction subtraction. -/
def F64.sub (a b : F64) : F64 := ⟨a.num * b.den - b.num * a.den, a.den * b.den⟩

/-- Exact fraction multiplication. -/
def F64.mul (a b : F64) : F64 := ⟨a.num * b.num, a.den * b.den⟩

/-- The reciprocal; `num = 0` yields the denormal `⟨den, 0⟩`, the one place
the model leaves IEEE semantics (f64 division by zero gives ±inf), marked
here and unexercised by every claim. -/
def F64.inv (b : F64) : F64 :=
  if b.num < 0 then ⟨-(b.den : Int), b.num.natAbs⟩ else ⟨(b.den : Int), b.num.natAbs⟩

/-- Exact fraction division (via `F64.inv`; see its caveat on zero). -/
def F64.div (a b : F64) : F64 := a.mul b.inv

instance : Add F64 := ⟨F64.add⟩
instance : Sub F64 := ⟨F64.sub⟩
instance : Mul F64 := ⟨F64.mul⟩
instance : Div F64 := ⟨F64.div⟩

/-- Numeric equality by cross multiplication (exactly IEEE `==` on the
finite values both models can hold). -/
def F64.beq (a b : F64) : Bool := a.num * b.den = b.num * a.den

instance : BEq F64 := ⟨F64.beq⟩

/-- Numeric strict order by cross multiplication (denominators positive). -/
def F64.blt (a b : F64) : Bool := a.num * b.den < b.num * a.den

/-- The FNV-1a 64-bit prime used by the `fnv` crate. -/
def fnvPrime : Nat := 1099511628211

/-- The FNV-1a 64-bit offset basis. -/
def fnvOffsetBasis : Nat := 14695981039346656037

/-- One FNV-1a step on a byte: `hash = (hash XOR byte) * prime`, in `u64`
(hence the reduction modulo `2^64`). -/
def fnvStep (h b : Nat) : Nat := ((h ^^^ b) * fnvPrime) % 18446744073709551616

/-- The UTF-8 encoding of one character, as Rust produces it when hashing a
string's bytes. -/
def charUtf8Bytes (c : Char) : List Nat :=
  let n := c.toNat
  if n < 128 then [n]
  else if n < 2048 then [192 ||| (n >>> 6), 128 ||| (n &&& 63)]
  else if n < 65536 then
    [224 ||| (n >>> 12), 128 ||| ((n >>> 6) &&& 63), 128 ||| (n &&& 63)]
  else
    [240 ||| (n >>> 18), 128 ||| ((n >>> 12) &&& 63),
      128 ||| ((n >>> 6) &&& 63), 128 ||| (n &&& 63)]

/-- The UTF-8 bytes of a string. -/
def stringBytes (s : String) : List Nat := (s.data.map charUtf8Bytes).flatten

/-- `ObjString::new`'s hash: Rust's `Hash for str` feeds the UTF-8 bytes
followed by a `0xff` terminator byte into `FnvHasher` (FNV-1a, 64 bit). -/
def fnvHashStr (s : String) : Nat :=
  (stringBytes s ++ [255]).foldl fnvStep fnvOffsetBasis

/-- src/value.rs `ObjString`: the string content together with its
precomputed hash. -/
structure ObjString where
  string : String
  hash : Nat
deriving DecidableEq, Repr

/-- src/value.rs `ObjString::new`: store the string with its FNV-1a hash. -/
def ObjString.new (s : String) : ObjString := ⟨s, fnvHashStr s⟩

/-- src/value.rs `ObjString::as_str`. -/
def ObjString.as_str (o : ObjString) : String := o.string

/-- src/value.rs `ObjString::get_hash`. -/
def ObjString.get_hash (o : ObjString) : Nat := o.hash

/-- src/value.rs `ObjType`: currently only strings. -/
inductive ObjType where
  | objString (s : ObjString)
deriving DecidableEq, Repr

/-- src/value.rs `Obj`. -/
structure Obj where
  obj_type : ObjType
deriving DecidableEq, Repr

/-- src/value.rs `Value`: the tagged union of runtime values. -/
inductive Value where
  | boolean (b : Bool)
  | nil
  | number (n : F64)
  | object (o : Obj)
deriving DecidableEq, Repr

/-- src/value.rs `Value::as_number`. -/
def Value.as_number : Value → Option F64
  | .number n => some n
  | _ => none

/-- src/value.rs `Value::is_number`. -/
def Value.is_number : Value → Bool
  | .number _ => true
  | _ => false

/-- src/value.rs `Value::is_string`. -/
def Value.is_string : Value → Bool
  | .object ⟨.objString _⟩ => true
  | _ => false

/-- src/value.rs `Value::is_falsey`: `Nil` and `Boolean(false)` are falsey,
everything else is truthy. -/
def Value.is_falsey : Value → Bool
  | .boolean b => !b
  | .nil => true
  | _ => false

/-- src/value.rs `Value::values_equal`: variant-sensitive equality; strings
compare their hashes first and contents on a hash match. -/
def Value.values_equal (a b : Value) : Bool :=
  match a, b with
  | .nil, .nil => true
  | .boolean x, .boolean y => x == y
  | .number x, .number y => x == y
  | .object oa, .object ob =>
    match oa.obj_type, ob.obj_type with
    | .objString s1, .objString s2 =>
      if s1.get_hash != s2.get_hash then false else s1.as_str == s2.as_str
  | _, _ => false

/-- src/table.rs `Table`: a `HashMap<ObjType, Value>` modelled as an
association list without duplicate keys; `HashMap::insert` replaces the
value of an existing key. -/
structure Table where
  entries : List (ObjType × Value)
deriving DecidableEq, Repr

/-- src/table.rs `Table::init_table`. -/
def Table.init_table : Table := ⟨[]⟩

/-- src/table.rs `Table::table_get`: `HashMap::get(&key).cloned()`. -/
def Table.table_get (t : Table) (key : ObjType) : Option Value :=
  (t.entries.find? (fun e => e.1 == key)).map (fun e => e.2)

/-- `HashMap::insert`: replace the binding of `key` if present, append
otherwise. -/
def setEntry : List (ObjType × Value) → ObjType → Value → List (ObjType × Value)
  | [], k, v => [(k, v)]
  | e :: es, k, v => if e.1 = k then (k, v) :: es else e :: setEntry es k v

/-- src/table.rs `Table::table_set`: insert, reporting whether the key was
new. -/
def Table.table_set (t : Table) (key : ObjType) (v : Value) : Bool × Table :=
  let is_new_key := (t.table_get key).isNone
  (is_new_key, ⟨setEntry t.entries key v⟩)

/-- src/chunk.rs `OpCode`.  The first 21 constructors carry the enum's
explicit discriminants 0..20 (see `OpCode.toByte`).

Modelled from the spec: `OP_JUMP_IF_FALSE`, `OP_JUMP` and `OP_LOOP` are
referenced by src/compiler.rs (`emit_jump`, `emit_loop`) but are missing
from the `OpCode` enum in src/chunk.rs; the spec's opcode table (section
4.4) documents them, and they are given here the next free discriminants
21..23.  No claim depends on their numeric values: the VM's `run` has no
case for any byte above 20 and treats them all alike. -/
inductive OpCode where
  | opReturn
  | opConstant
  | opNegate
  | opAdd
  | opSubtract
  | opMultiply
  | opDivide
  | opNil
  | opTrue
  | opFalse
  | opNot
  | opEqual
  | opGreater
  | opLess
  | opPrint
  | opPop
  | opDefineGlobal
  | opGetGlobal
  | opSetGlobal
  | opGetLocal
  | opSetLocal
  | opJumpIfFalse
  | opJump
  | opLoop
deriving DecidableEq, Repr

/-- The `as u8` value of each opcode (src/chunk.rs discriminants). -/
def OpCode.toByte : OpCode → Nat
  | .opReturn => 0
  | .opConstant => 1
  | .opNegate => 2
  | .opAdd => 3
  | .opSubtract => 4
  | .opMultiply => 5
  | .opDivide => 6
  | .opNil => 7
  | .opTrue => 8
  | .opFalse => 9
  | .opNot => 10
  | .opEqual => 11
  | .opGreater => 12
  | .opLess => 13
  | .opPrint => 14
  | .opPop => 15
  | .opDefineGlobal => 16
  | .opGetGlobal => 17
  | .opSetGlobal => 18
  | .opGetLocal => 19
  | .opSetLocal => 20
  | .opJumpIfFalse => 21
  | .opJump => 22
  | .opLoop => 23

/-- src/value.rs `ValueArray`. -/
structure ValueArray where
  values : List Value
deriving DecidableEq, Repr

/-- src/value.rs `ValueArray::init_value_array`. -/
def ValueArray.init_value_array : ValueArray := ⟨[]⟩

/-- src/chunk.rs `Chunk`: bytecode, constants pool and parallel lines.
Bytes are `Nat`s; every byte written by the compiler or read by the VM is
below 256 (`as u8` casts of opcode discriminants ≤ 23, constant indices
≤ 255, and jump bytes already masked with `& 0xff`). -/
structure Chunk where
  code : List Nat
  constants : ValueArray
  lines : List Int
deriving DecidableEq, Repr

/-- src/chunk.rs `Chunk::init_chunk`. -/
def Chunk.init_chunk : Chunk := ⟨[], ValueArray.init_value_array, []⟩

/-- src/chunk.rs `Chunk::write_chunk`: append a byte and its line. -/
def Chunk.write_chunk (ch : Chunk) (byte : Nat) (line : Int) : Chunk :=
  { ch with code := ch.code ++ [byte], lines := ch.lines ++ [line] }

/-- src/chunk.rs `Chunk::add_constant`: append to the pool, return the new
index. -/
def Chunk.add_constant (ch : Chunk) (v : Value) : Nat × Chunk :=
  let ch := { ch with constants := ⟨ch.constants.values ++ [v]⟩ }
  (ch.constants.values.length - 1, ch)

/-- src/scanner.rs `TokenType`; constructor order follows the Rust enum
(`as usize` indexes the parse-rule table by this order).  Keyword
constructors carry a `kw` marker because Lean reserves their bare names. -/
inductive TokenType where
  | lparen
  | rparen
  | lbrace
  | rbrace
  | comma
  | dot
  | minus
  | plus
  | semicolon
  | slash
  | star
  | bang
  | bangEqual
  | equal
  | equalEqual
  | greater
  | greaterEqual
  | less
  | lessEqual
  | identifier
  | string
  | number
  | kwAnd
  | kwClass
  | kwElse
  | kwFalse
  | kwFor
  | kwFun
  | kwIf
  | kwNil
  | kwOr
  | kwPrint
  | kwReturn
  | kwSuper
  | kwThis
  | kwTrue
  | kwVar
  | kwWhile
  | error
  | eof
deriving DecidableEq, Repr

/-- src/scanner.rs `Token`: kind plus source offsets (the token does not own
text). -/
structure Token where
  token_type : TokenType
  start : Nat
  length : Nat
  line : Int
  error_msg : Option String
deriving DecidableEq, Repr

/-- The byte count `String::len` of a source: the length of its UTF-8
encoding.  The scanner's `current` cursor advances once per *character*,
but `is_at_end` compares it against this *byte* count (module comment). -/
def srcByteLen (source : List Char) : Nat :=
  ((source.map charUtf8Bytes).flatten).length

/-- src/scanner.rs `Scanner`: cursor state over the source.  The source is
kept as its character sequence and `current` counts consumed characters
(each `advance`/`match_char` step adds one).  `crashed` is model
bookkeeping only (module comment): it records the panic of the bare
`unwrap()` in `match_char`, which the program reaches on sources with
multibyte characters; once set the state is poisoned and only the flag is
meaningful. -/
structure Scanner where
  source : List Char
  start : Nat
  current : Nat
  line : Int
  crashed : Bool
deriving DecidableEq, Repr

/-- src/scanner.rs `Scanner::init_scanner`. -/
def Scanner.init_scanner (source : String) : Scanner :=
  ⟨source.data, 0, 0, 1, false⟩

/-- src/scanner.rs `Scanner::is_at_end`: `current >= source.len()`, where
`source.len()` is Rust's *byte* length although `current` advances once per
character — the mixing is kept exactly (module comment). -/
def Scanner.is_at_end (s : Scanner) : Bool := srcByteLen s.source ≤ s.current

/-- src/scanner.rs `Scanner::advance`: when not at the (byte-length) end,
step `current` and return `source.chars().nth(current - 1).unwrap_or('\0')`
— so `'\0'` both at the end of input (without moving) and, faithfully to
the `unwrap_or`, when the cursor has already run past the last character
while still below the byte length. -/
def Scanner.advanceChar (s : Scanner) : Char × Scanner :=
  if s.is_at_end then ('\x00', s)
  else (((s.source.get? s.current).getD '\x00'), { s with current := s.current + 1 })

/-- The state part of `Scanner::advance` (the loops below ignore the
returned character). -/
def Scanner.advanceS (s : Scanner) : Scanner := s.advanceChar.2

/-- src/scanner.rs `Scanner::peek`: current character without consuming;
`'\0'` at the end and (via the source's `unwrap_or('\0')`) past the last
character. -/
def Scanner.peekC (s : Scanner) : Char :=
  if s.is_at_end then '\x00' else (s.source.get? s.current).getD '\x00'

/-- src/scanner.rs `Scanner::peek_next`: the guard is
`self.current + 1 >= self.source.len()` (byte length), the read is
`chars().nth(current + 1).unwrap_or('\0')`. -/
def Scanner.peekNextC (s : Scanner) : Char :=
  if srcByteLen s.source ≤ s.current + 1 then '\x00'
  else (s.source.get? (s.current + 1)).getD '\x00'

/-- src/scanner.rs `Scanner::match_char`: conditionally consume the current
character when it equals `value`.  Unlike its neighbours, this one reads
`source.chars().nth(current).unwrap()`: when `current` is below the byte
length (`is_at_end` false) yet past the last character — reachable exactly
when a multibyte character occurs earlier in the source — the `unwrap`
panics.  The panic is modelled by the `crashed` flag; the accompanying
`false` is a dummy continuation value (no theorem trusts a poisoned state
beyond its flag). -/
def Scanner.match_char (value : Char) (s : Scanner) : Bool × Scanner :=
  if s.is_at_end then (false, s)
  else
    match s.source.get? s.current with
    | Option.none => (false, { s with crashed := true })
    | some c =>
      if c ≠ value then (false, s)
      else (true, { s with current := s.current + 1 })

/-- src/scanner.rs `Scanner::is_digit`. -/
def isDigitChar (c : Char) : Bool := '0' ≤ c && c ≤ '9'

/-- src/scanner.rs `Scanner::is_alpha`. -/
def isAlphaChar (c : Char) : Bool :=
  ('a' ≤ c && c ≤ 'z') || ('A' ≤ c && c ≤ 'Z') || c == '_'

/-- The inner `while self.peek() != '\n' && !self.is_at_end()` of
`skip_whitespace`'s line-comment branch.  The bound argument dominates the
iteration count: every iteration that does not return advances `current` by
one and `current` never exceeds the byte length, so
`srcByteLen source + 1 - current` iterations always suffice (see
`skipLineComment`). -/
def skipCommentAux : Nat → Scanner → Scanner
  | 0, s => s
  | n + 1, s =>
    if s.peekC ≠ '\n' && !s.is_at_end then skipCommentAux n s.advanceS else s

/-- The line-comment loop with its sufficient bound. -/
def skipLineComment (s : Scanner) : Scanner :=
  skipCommentAux (srcByteLen s.source + 1 - s.current) s

/-- The loop body of src/scanner.rs `Scanner::skip_whitespace`, bounded as
above: every iteration that does not return advances `current` by at least
one (the comment branch is only entered on a `'/'` character, which the
inner loop consumes). -/
def skipWsAux : Nat → Scanner → Scanner
  | 0, s => s
  | n + 1, s =>
    let c := s.peekC
    if c = ' ' || c = '\x0d' || c = '\t' then skipWsAux n s.advanceS
    else if c = '\n' then skipWsAux n { s.advanceS with line := s.line + 1 }
    else if c = '/' then
      if s.peekNextC = '/' then skipWsAux n (skipLineComment s)
      else s
    else s

/-- src/scanner.rs `Scanner::skip_whitespace`. -/
def Scanner.skip_whitespace (s : Scanner) : Scanner :=
  skipWsAux (srcByteLen s.source + 1 - s.current) s

/-- src/scanner.rs `Scanner::make_token`. -/
def Scanner.make_token (s : Scanner) (tt : TokenType) : Token :=
  ⟨tt, s.start, s.current - s.start, s.line, none⟩

/-- src/scanner.rs `Scanner::error_token`; `length` is the message's length
as in the source. -/
def Scanner.error_token (s : Scanner) (message : String) : Token :=
  ⟨.error, s.start, message.length, s.line, some message⟩

/-- src/scanner.rs `Scanner::check_keyword`: length test, then a comparison
of `source[self.start + start .. self.current]` with `rest`.  The source
slices *bytes* at these character-counter indices; the model compares the
character slice.  The two coincide exactly when every character before
`current` is ASCII (keywords themselves always are), which holds on every
input on which a theorem below evaluates this function; on a source with an
earlier multibyte character the Rust slice is shifted, or panics on a
non-boundary index (module comment). -/
def Scanner.check_keyword (s : Scanner) (start length : Nat) (rest : String)
    (token_type : TokenType) : TokenType :=
  if s.current - s.start = start + length
      && (s.source.drop (s.start + start)).take (s.current - (s.start + start))
        = rest.data then
    token_type
  else .identifier

/-- src/scanner.rs `Scanner::identifier_type`: the keyword trie on the first
one or two characters.  Both `unwrap()`s here are unreachable panics:
`identifier` is entered only after `advance` returned the alphabetic
character at position `start` (so `chars().nth(self.start)` is `Some`), and
the `chars().nth(self.start + 1).unwrap()` arms run only under
`current - start > 1`, i.e. after the alnum loop consumed a character at
`start + 1`.  Both are modelled with a never-taken `'\0'` default. -/
def Scanner.identifier_type (s : Scanner) : TokenType :=
  match (s.source.get? s.start).getD '\x00' with
  | 'a' => s.check_keyword 1 2 "nd" .kwAnd
  | 'c' => s.check_keyword 1 4 "lass" .kwClass
  | 'e' => s.check_keyword 1 3 "lse" .kwElse
  | 'i' => s.check_keyword 1 1 "f" .kwIf
  | 'n' => s.check_keyword 1 2 "il" .kwNil
  | 'o' => s.check_keyword 1 1 "r" .kwOr
  | 'p' => s.check_keyword 1 4 "rint" .kwPrint
  | 'r' => s.check_keyword 1 5 "eturn" .kwReturn
  | 's' => s.check_keyword 1 4 "uper" .kwSuper
  | 'v' => s.check_keyword 1 2 "ar" .kwVar
  | 'w' => s.check_keyword 1 4 "hile" .kwWhile
  | 'f' =>
    if s.current - s.start > 1 then
      match (s.source.get? (s.start + 1)).getD '\x00' with
      | 'a' => s.check_keyword 2 3 "lse" .kwFalse
      | 'o' => s.check_keyword 2 1 "r" .kwFor
      | 'u' => s.check_keyword 2 1 "n" .kwFun
      | _ => .identifier
    else .identifier
  | 't' =>
    if s.current - s.start > 1 then
      match (s.source.get? (s.start + 1)).getD '\x00' with
      | 'h' => s.check_keyword 2 2 "is" .kwThis
      | 'r' => s.check_keyword 2 2 "ue" .kwTrue
      | _ => .identifier
    else .identifier
  | _ => .identifier

/-- The `while is_alpha || is_digit` loop of `Scanner::identifier`, bounded
like the other loops. -/
def alnumAux : Nat → Scanner → Scanner
  | 0, s => s
  | n + 1, s =>
    if isAlphaChar s.peekC || isDigitChar s.peekC then alnumAux n s.advanceS
    else s

/-- src/scanner.rs `Scanner::identifier`. -/
def Scanner.identifierToken (s : Scanner) : Token × Scanner :=
  let s := alnumAux (srcByteLen s.source + 1 - s.current) s
  (s.make_token s.identifier_type, s)

/-- The `while is_digit(peek)` loops of `Scanner::number`, bounded like the
other loops. -/
def digitsAux : Nat → Scanner → Scanner
  | 0, s => s
  | n + 1, s => if isDigitChar s.peekC then digitsAux n s.advanceS else s

/-- src/scanner.rs `Scanner::number`: digits, an optional `'.'` followed by
a digit, then more digits. -/
def Scanner.numberToken (s : Scanner) : Token × Scanner :=
  let s := digitsAux (srcByteLen s.source + 1 - s.current) s
  let s :=
    if s.peekC = '.' && isDigitChar s.peekNextC then s.advanceS else s
  let s := digitsAux (srcByteLen s.source + 1 - s.current) s
  (s.make_token .number, s)

/-- The `while peek != '"' && !at_end` loop of `Scanner::string`, with the
line counter bumped on embedded newlines. -/
def stringAux : Nat → Scanner → Scanner
  | 0, s => s
  | n + 1, s =>
    if s.peekC ≠ '"' && !s.is_at_end then
      let s := if s.peekC = '\n' then { s with line := s.line + 1 } else s
      stringAux n s.advanceS
    else s

/-- src/scanner.rs `Scanner::string`: scan to the closing quote; an
unterminated string yields an `Error` token. -/
def Scanner.stringToken (s : Scanner) : Token × Scanner :=
  let s := stringAux (srcByteLen s.source + 1 - s.current) s
  if s.is_at_end then (s.error_token "Unterminated string.", s)
  else
    let s := s.advanceS
    (s.make_token .string, s)

/-- The single-character arms of the `match c` block in src/scanner.rs
`Scanner::scan_token` (`( ) { } , . - + ; * /`), as a table. -/
def punct1 (c : Char) : Option TokenType :=
  if c = '(' then some .lparen
  else if c = ')' then some .rparen
  else if c = '\x7b' then some .lbrace
  else if c = '\x7d' then some .rbrace
  else if c = ',' then some .comma
  else if c = '.' then some .dot
  else if c = '-' then some .minus
  else if c = '+' then some .plus
  else if c = ';' then some .semicolon
  else if c = '*' then some .star
  else if c = '/' then some .slash
  else Option.none

/-- The dual-character arms of the same `match` (`! = < >`): the token kind
when a `'='` follows, and when it does not. -/
def punct2 (c : Char) : Option (TokenType × TokenType) :=
  if c = '!' then some (.bangEqual, .bang)
  else if c = '=' then some (.equalEqual, .equal)
  else if c = '<' then some (.lessEqual, .less)
  else if c = '>' then some (.greaterEqual, .greater)
  else Option.none

/-- The `match c` block of src/scanner.rs `Scanner::scan_token`, split out
of `scan_token` with its arms grouped through the two tables above (the
arms are mutually exclusive, so the grouping preserves the Rust `match`
exactly): single punctuators, `'='`-lookahead punctuators, string
literals, and the fall-through to the "Unexpected character." error token
(whose debug print is not modelled). -/
def Scanner.punctToken (c : Char) (s : Scanner) : Token × Scanner :=
  match punct1 c with
  | some tt => (s.make_token tt, s)
  | Option.none =>
    match punct2 c with
    | some (two, one) =>
      let (m, s) := s.match_char '='
      if m then (s.make_token two, s) else (s.make_token one, s)
    | Option.none =>
      if c = '"' then s.stringToken
      else (s.error_token "Unexpected character.", s)

/-- src/scanner.rs `Scanner::scan_token`: skip whitespace, remember the
token start, classify one lexeme (identifiers and numbers first, then the
`match` on the consumed character, embedded as `punctToken`). -/
def Scanner.scan_token (s0 : Scanner) : Token × Scanner :=
  let s := s0.skip_whitespace
  let s := { s with start := s.current }
  if s.is_at_end then (s.make_token .eof, s)
  else
    let (c, s) := s.advanceChar
    if isAlphaChar c then s.identifierToken
    else if isDigitChar c then s.numberToken
    else s.punctToken c

/-- src/vm.rs `InterpretResult`. -/
inductive InterpretResult where
  | interpretOk
  | interpretCompileError
  | interpretRuntimeError
deriving DecidableEq, Repr

/-- One event on the modelled output stream: a value printed via
`print_value` + newline, or a `runtime_error` report.  Debug `println!`
traces are not modelled (module comment). -/
inductive OutEvent where
  | printed (v : Value)
  | runtimeErrorMsg (msg : String)
deriving DecidableEq, Repr

/-- The result of running the VM: a returned `InterpretResult`, a Rust
panic (`crashed`, carrying `panic!`'s message where the claims mention it),
or exhaustion of the model's fuel. -/
inductive RunOutcome where
  | done (r : InterpretResult)
  | crashed (msg : String)
  | outOfFuel
deriving DecidableEq, Repr

/-- src/vm.rs `VM`: chunk, instruction pointer, value stack (top first),
intern table and globals table.  `ip` is a `u8` in the source — its
increments below are taken modulo 256 (module comment). -/
structure VM where
  chunk : Chunk
  ip : Nat
  stack : List Value
  strings : Table
  globals : Table
deriving DecidableEq, Repr

/-- src/vm.rs `VM::init_vm`. -/
def VM.init_vm : VM :=
  ⟨Chunk.init_chunk, 0, [], Table.init_table, Table.init_table⟩

/-- src/vm.rs `VM::peek`: `&stack[len - 1 - distance]`; `none` models the
out-of-bounds panic. -/
def VM.peekV (vm : VM) (distance : Nat) : Option Value :=
  vm.stack.get? distance

/-- src/vm.rs `VM::runtime_error`: report the message and clear the stack. -/
def VM.runtime_error (vm : VM) (message : String) (outs : List OutEvent) :
    VM × List OutEvent :=
  ({ vm with stack := [] }, outs ++ [.runtimeErrorMsg message])

/-- src/vm.rs `VM::intern_string`: look the content up in the intern table,
return the existing value on a hit, insert and return a fresh string object
on a miss. -/
def VM.intern_string (vm : VM) (s : String) : Value × VM :=
  let obj_string := ObjString.new s
  match vm.strings.table_get (.objString obj_string) with
  | some existing_value => (existing_value, vm)
  | none =>
    let value := Value.object ⟨.objString obj_string⟩
    let (_, strings) := vm.strings.table_set (.objString obj_string) value
    (value, { vm with strings := strings })

/-- src/vm.rs `VM::read_string`: the constant named by the byte at `ip`,
which must be an object.  `.error` models the panics (out-of-bounds
indexing resp. `panic!("Expected string constant")`). -/
def VM.read_string (vm : VM) : Except String ObjType :=
  match vm.chunk.code.get? vm.ip with
  | none => .error "index out of bounds"
  | some constant_index =>
    match vm.chunk.constants.values.get? constant_index with
    | none => .error "index out of bounds"
    | some (.object obj) => .ok obj.obj_type
    | some _ => .error "Expected string constant"

/-- `pred(self.peek(0)) && pred(self.peek(1))` with Rust's short-circuit
evaluation: `peek(1)` is only reached (and can only panic) when the first
test succeeded. -/
def VM.peekCheck (vm : VM) (pred : Value → Bool) : Except String Bool :=
  match vm.peekV 0 with
  | none => .error "index out of bounds"
  | some p0 =>
    if !pred p0 then .ok false
    else
      match vm.peekV 1 with
      | none => .error "index out of bounds"
      | some p1 => .ok (pred p1)

/-- src/vm.rs `VM::concatenate`: pop two values; two strings concatenate
(through the intern table) and push, anything else is the
`"Operands must be strings."` runtime error. -/
def VM.concatenate (vm : VM) (outs : List OutEvent) :
    Except String (InterpretResult × VM × List OutEvent) :=
  match vm.stack with
  | b :: a :: rest =>
    let vm := { vm with stack := rest }
    match a, b with
    | .object oa, .object ob =>
      match oa.obj_type, ob.obj_type with
      | .objString str_a, .objString str_b =>
        let (result, vm) := vm.intern_string (str_a.as_str ++ str_b.as_str)
        .ok (.interpretOk, { vm with stack := result :: vm.stack }, outs)
    | _, _ =>
      let (vm, outs) := vm.runtime_error "Operands must be strings." outs
      .ok (.interpretRuntimeError, vm, outs)
  | _ => .error "pop from empty stack"

/-- src/vm.rs `VM::binary_op`: check both operands are numbers (else the
`"Operands must be numbers."` runtime error), then pop twice and apply the
operator named by `op`.  The `_ => println!("unknown binary operation")`
arm pops nothing and returns Ok, as in the source. -/
def VM.binary_op (vm : VM) (op : String) (outs : List OutEvent) :
    Except String (InterpretResult × VM × List OutEvent) :=
  match vm.peekCheck Value.is_number with
  | .error m => .error m
  | .ok false =>
    let (vm, outs) := vm.runtime_error "Operands must be numbers." outs
    .ok (.interpretRuntimeError, vm, outs)
  | .ok true =>
    match vm.stack with
    | b :: a :: rest =>
      match b.as_number, a.as_number with
      | some bn, some an =>
        if op = "+" then
          .ok (.interpretOk, { vm with stack := .number (an + bn) :: rest }, outs)
        else if op = "-" then
          .ok (.interpretOk, { vm with stack := .number (an - bn) :: rest }, outs)
        else if op = "*" then
          .ok (.interpretOk, { vm with stack := .number (an * bn) :: rest }, outs)
        else if op = "/" then
          .ok (.interpretOk, { vm with stack := .number (an / bn) :: rest }, outs)
        else if op = ">" then
          .ok (.interpretOk,
            { vm with stack := .boolean (F64.blt bn an) :: rest }, outs)
        else if op = "<" then
          .ok (.interpretOk,
            { vm with stack := .boolean (F64.blt an bn) :: rest }, outs)
        else .ok (.interpretOk, vm, outs)
      | _, _ => .error "unwrap on a non-number"
    | _ => .error "pop from empty stack"

/-- src/vm.rs `VM::run`, with explicit fuel bounding the number of
dispatched instructions.  Faithful details worth flagging for the reader:

* the loop first returns Ok when `ip` has run off the end of `code`;
* `OP_RETURN` pops **and prints** the top of a non-empty stack before
  returning Ok;
* the results of `binary_op` for `OP_SUBTRACT`/`OP_MULTIPLY`/`OP_DIVIDE`/
  `OP_GREATER`/`OP_LESS` and of `concatenate`/`binary_op` under `OP_ADD`
  are **discarded** (the Rust statements ignore the returned
  `InterpretResult`), so a runtime error reported inside them does not stop
  the loop;
* no case exists for `OP_GET_GLOBAL`, `OP_SET_GLOBAL`, `OP_GET_LOCAL`,
  `OP_SET_LOCAL` or any byte above 16: they all reach the
  `_ => panic!("unknown instruction")` branch. -/
def runFuel : Nat → VM → List OutEvent → RunOutcome × VM × List OutEvent
  | 0, vm, outs => (.outOfFuel, vm, outs)
  | fuel + 1, vm0, outs =>
    match vm0.chunk.code.get? vm0.ip with
    | none => (.done .interpretOk, vm0, outs)
    | some instruction =>
      let vm := { vm0 with ip := (vm0.ip + 1) % 256 }
      if instruction = OpCode.opReturn.toByte then
        match vm.stack with
        | [] => (.done .interpretOk, vm, outs)
        | v :: rest =>
          (.done .interpretOk, { vm with stack := rest }, outs ++ [.printed v])
      else if instruction = OpCode.opConstant.toByte then
        match vm.chunk.code.get? vm.ip with
        | none => (.crashed "index out of bounds", vm, outs)
        | some constant_index =>
          let vm := { vm with ip := (vm.ip + 1) % 256 }
          match vm.chunk.constants.values.get? constant_index with
          | none => (.crashed "index out of bounds", vm, outs)
          | some c => runFuel fuel { vm with stack := c :: vm.stack } outs
      else if instruction = OpCode.opNil.toByte then
        runFuel fuel { vm with stack := .nil :: vm.stack } outs
      else if instruction = OpCode.opTrue.toByte then
        runFuel fuel { vm with stack := .boolean true :: vm.stack } outs
      else if instruction = OpCode.opFalse.toByte then
        runFuel fuel { vm with stack := .boolean false :: vm.stack } outs
      else if instruction = OpCode.opNot.toByte then
        match vm.stack with
        | [] => (.crashed "pop from empty stack", vm, outs)
        | v :: rest =>
          runFuel fuel { vm with stack := .boolean v.is_falsey :: rest } outs
      else if instruction = OpCode.opNegate.toByte then
        match vm.peekV 0 with
        | none => (.crashed "index out of bounds", vm, outs)
        | some p =>
          if !p.is_number then
            let (vm, outs) := vm.runtime_error "Operand must be a number." outs
            (.done .interpretRuntimeError, vm, outs)
          else
            match vm.stack with
            | .number n :: rest =>
              runFuel fuel { vm with stack := .number (n * (-1)) :: rest } outs
            | _ => (.crashed "unwrap on a non-number", vm, outs)
      else if instruction = OpCode.opAdd.toByte then
        match vm.peekCheck Value.is_string with
        | .error m => (.crashed m, vm, outs)
        | .ok true =>
          match vm.concatenate outs with
          | .error m => (.crashed m, vm, outs)
          | .ok (_, vm, outs) => runFuel fuel vm outs
        | .ok false =>
          match vm.peekCheck Value.is_number with
          | .error m => (.crashed m, vm, outs)
          | .ok true =>
            match vm.binary_op "+" outs with
            | .error m => (.crashed m, vm, outs)
            | .ok (_, vm, outs) => runFuel fuel vm outs
          | .ok false =>
            let (vm, outs) :=
              vm.runtime_error "Operands must be two numbers or two strings." outs
            (.done .interpretRuntimeError, vm, outs)
      else if instruction = OpCode.opSubtract.toByte then
        match vm.binary_op "-" outs with
        | .error m => (.crashed m, vm, outs)
        | .ok (_, vm, outs) => runFuel fuel vm outs
      else if instruction = OpCode.opMultiply.toByte then
        match vm.binary_op "*" outs with
        | .error m => (.crashed m, vm, outs)
        | .ok (_, vm, outs) => runFuel fuel vm outs
      else if instruction = OpCode.opDivide.toByte then
        match vm.binary_op "/" outs with
        | .error m => (.crashed m, vm, outs)
        | .ok (_, vm, outs) => runFuel fuel vm outs
      else if instruction = OpCode.opEqual.toByte then
        match vm.stack with
        | b :: a :: rest =>
          runFuel fuel
            { vm with stack := .boolean (a.values_equal b) :: rest } outs
        | _ => (.crashed "pop from empty stack", vm, outs)
      else if instruction = OpCode.opGreater.toByte then
        match vm.binary_op ">" outs with
        | .error m => (.crashed m, vm, outs)
        | .ok (_, vm, outs) => runFuel fuel vm outs
      else if instruction = OpCode.opLess.toByte then
        match vm.binary_op "<" outs with
        | .error m => (.crashed m, vm, outs)
        | .ok (_, vm, outs) => runFuel fuel vm outs
      else if instruction = OpCode.opPrint.toByte then
        match vm.stack with
        | [] => (.crashed "pop from empty stack", vm, outs)
        | v :: rest =>
          runFuel fuel { vm with stack := rest } (outs ++ [.printed v])
      else if instruction = OpCode.opPop.toByte then
        match vm.stack with
        | [] => (.crashed "pop from empty stack", vm, outs)
        | _ :: rest => runFuel fuel { vm with stack := rest } outs
      else if instruction = OpCode.opDefineGlobal.toByte then
        match vm.read_string with
        | .error m => (.crashed m, vm, outs)
        | .ok name =>
          let vm := { vm with ip := (vm.ip + 1) % 256 }
          match vm.peekV 0 with
          | none => (.crashed "index out of bounds", vm, outs)
          | some v =>
            let (_, globals) := vm.globals.table_set name v
            let vm := { vm with globals := globals }
            match vm.stack with
            | [] => (.crashed "pop from empty stack", vm, outs)
            | _ :: rest => runFuel fuel { vm with stack := rest } outs
      else (.crashed "unknown instruction", vm, outs)

/-- src/compiler.rs `Precedence`, lowest to highest. -/
inductive Precedence where
  | none
  | assignment
  | or
  | and
  | equality
  | comparison
  | term
  | factor
  | unary
  | call
  | primary
deriving DecidableEq, Repr

/-- The discriminant underlying Rust's derived `PartialOrd` on
`Precedence`. -/
def Precedence.toNat : Precedence → Nat
  | .none => 0
  | .assignment => 1
  | .or => 2
  | .and => 3
  | .equality => 4
  | .comparison => 5
  | .term => 6
  | .factor => 7
  | .unary => 8
  | .call => 9
  | .primary => 10

/-- src/compiler.rs `Precedence::next` (`Primary` maps to itself). -/
def Precedence.next : Precedence → Precedence
  | .none => .assignment
  | .assignment => .or
  | .or => .and
  | .and => .equality
  | .equality => .comparison
  | .comparison => .term
  | .term => .factor
  | .factor => .unary
  | .unary => .call
  | .call => .primary
  | .primary => .primary

/-- The prefix handlers appearing in the `RULES` table, defunctionalized
(the Rust table stores `fn` pointers). -/
inductive PrefixFn where
  | grouping
  | unary
  | variableFn
  | stringFn
  | numberFn
  | literal
deriving DecidableEq, Repr

/-- The infix handlers appearing in the `RULES` table, defunctionalized. -/
inductive InfixFn where
  | binaryFn
  | andFn
  | orFn
deriving DecidableEq, Repr

/-- src/compiler.rs `ParseRule`. -/
structure ParseRule where
  prefixRule : Option PrefixFn
  infixRule : Option InfixFn
  precedence : Precedence
deriving DecidableEq, Repr

/-- src/compiler.rs `RULES`, the static table indexed by token kind: one
arm per entry, in the array's order.  Note three entries transcribed
exactly as the source has them: `TOKEN_AND` has infix `and_` but precedence
`None`; `TOKEN_OR` has no rules at all; `TOKEN_PRINT` carries the infix
`or_` handler (with precedence `None`). -/
def getRule : TokenType → ParseRule
  | .lparen => ⟨some .grouping, Option.none, .none⟩
  | .rparen => ⟨Option.none, Option.none, .none⟩
  | .lbrace => ⟨Option.none, Option.none, .none⟩
  | .rbrace => ⟨Option.none, Option.none, .none⟩
  | .comma => ⟨Option.none, Option.none, .none⟩
  | .dot => ⟨Option.none, Option.none, .none⟩
  | .minus => ⟨some .unary, some .binaryFn, .term⟩
  | .plus => ⟨Option.none, some .binaryFn, .term⟩
  | .semicolon => ⟨Option.none, Option.none, .none⟩
  | .slash => ⟨Option.none, some .binaryFn, .factor⟩
  | .star => ⟨Option.none, some .binaryFn, .factor⟩
  | .bang => ⟨some .unary, Option.none, .none⟩
  | .bangEqual => ⟨Option.none, some .binaryFn, .equality⟩
  | .equal => ⟨Option.none, Option.none, .none⟩
  | .equalEqual => ⟨Option.none, some .binaryFn, .equality⟩
  | .greater => ⟨Option.none, some .binaryFn, .comparison⟩
  | .greaterEqual => ⟨Option.none, some .binaryFn, .comparison⟩
  | .less => ⟨Option.none, some .binaryFn, .comparison⟩
  | .lessEqual => ⟨Option.none, some .binaryFn, .comparison⟩
  | .identifier => ⟨some .variableFn, Option.none, .none⟩
  | .string => ⟨some .stringFn, Option.none, .none⟩
  | .number => ⟨some .numberFn, Option.none, .none⟩
  | .kwAnd => ⟨Option.none, some .andFn, .none⟩
  | .kwClass => ⟨Option.none, Option.none, .none⟩
  | .kwElse => ⟨Option.none, Option.none, .none⟩
  | .kwFalse => ⟨some .literal, Option.none, .none⟩
  | .kwFor => ⟨Option.none, Option.none, .none⟩
  | .kwFun => ⟨Option.none, Option.none, .none⟩
  | .kwIf => ⟨Option.none, Option.none, .none⟩
  | .kwNil => ⟨some .literal, Option.none, .none⟩
  | .kwOr => ⟨Option.none, Option.none, .none⟩
  | .kwPrint => ⟨Option.none, some .orFn, .none⟩
  | .kwReturn => ⟨Option.none, Option.none, .none⟩
  | .kwSuper => ⟨Option.none, Option.none, .none⟩
  | .kwThis => ⟨Option.none, Option.none, .none⟩
  | .kwTrue => ⟨some .literal, Option.none, .none⟩
  | .kwVar => ⟨Option.none, Option.none, .none⟩
  | .kwWhile => ⟨Option.none, Option.none, .none⟩
  | .error => ⟨Option.none, Option.none, .none⟩
  | .eof => ⟨Option.none, Option.none, .none⟩

/-- src/compiler.rs `Parser`. -/
structure Parser where
  current : Token
  previous : Token
  had_error : Bool
  panic_mode : Bool
deriving DecidableEq, Repr

/-- src/compiler.rs `Parser::new`: both tokens start as zeroed `Eof`
tokens. -/
def Parser.new : Parser :=
  ⟨⟨.eof, 0, 0, 0, Option.none⟩, ⟨.eof, 0, 0, 0, Option.none⟩, false, false⟩

/-- src/compiler.rs `Local`: a local's name token and scope depth
(`-1` marks "declared but not initialized"). -/
structure Local where
  name : Token
  depth : Int
deriving DecidableEq, Repr

/-- src/compiler.rs `Compiler` state.  `fuel_out` and `crashed` are model
bookkeeping only (module comment): `fuel_out` records that the model's fuel
ran out (never the program's own behaviour), `crashed` records a Rust panic
(`unwrap()` of a missing infix rule, out-of-bounds local index, or a
scanner panic propagated by `advLoop`); once `crashed` is set the state is
poisoned and only the flag is meaningful. -/
structure CState where
  scanner : Scanner
  parser : Parser
  compiling_chunk : Chunk
  locals : List Local
  local_count : Nat
  scope_depth : Int
  fuel_out : Bool
  crashed : Bool
deriving DecidableEq, Repr

/-- src/compiler.rs `Compiler::new`. -/
def CState.new (source : String) : CState :=
  ⟨Scanner.init_scanner source, Parser.new, Chunk.init_chunk, [], 0, 0,
    false, false⟩

/-- src/compiler.rs `Compiler::error_at`: outside panic mode, print a
diagnostic (not modelled) and set `panic_mode` and `had_error`; in panic
mode do nothing.  The message only reaches the diagnostic printer, so the
model drops it. -/
def CState.error_at (c : CState) (_token : Token) (_message : String) : CState :=
  if c.parser.panic_mode then c
  else
    { c with parser := { c.parser with panic_mode := true, had_error := true } }

/-- src/compiler.rs `Compiler::error`: report at the previous token. -/
def CState.errorC (c : CState) (message : String) : CState :=
  c.error_at c.parser.previous message

/-- src/compiler.rs `Compiler::error_at_current`. -/
def CState.error_at_current (c : CState) (message : String) : CState :=
  c.error_at c.parser.current message

/-- The `loop` inside src/compiler.rs `Compiler::advance`: scan tokens,
reporting and skipping `Error` tokens until a non-error token arrives.
Each scanned error token advances the scanner cursor by at least one
(error tokens are only produced away from the end of input), the cursor
never exceeds the source's byte length, and at the end of input the scanner
yields `Eof`, which is not an error; hence
`srcByteLen source + 1 - current` iterations always suffice for the bound.
A scanner panic (`Scanner.match_char`) aborts the whole compilation before
the token is stored: the compiler state is poisoned with its own `crashed`
flag. -/
def advLoop : Nat → CState → CState
  | 0, c => { c with fuel_out := true }
  | n + 1, c =>
    let (tok, sc) := c.scanner.scan_token
    if sc.crashed then { c with scanner := sc, crashed := true }
    else
      let c := { c with scanner := sc, parser := { c.parser with current := tok } }
      if tok.token_type = TokenType.error then
        advLoop n (c.error_at_current (tok.error_msg.getD ""))
      else c

/-- src/compiler.rs `Compiler::advance`. -/
def CState.advanceC (c : CState) : CState :=
  let c := { c with parser := { c.parser with previous := c.parser.current } }
  advLoop (srcByteLen c.scanner.source + 1 - c.scanner.current) c

/-- src/compiler.rs `Compiler::check`. -/
def CState.check (c : CState) (token_type : TokenType) : Bool :=
  c.parser.current.token_type = token_type

/-- src/compiler.rs `Compiler::match_token`. -/
def CState.match_token (c : CState) (token_type : TokenType) : Bool × CState :=
  if c.check token_type then (true, c.advanceC) else (false, c)

/-- src/compiler.rs `Compiler::consume`. -/
def CState.consume (c : CState) (token_type : TokenType) (message : String) :
    CState :=
  if c.parser.current.token_type = token_type then c.advanceC
  else c.error_at_current message

/-- src/compiler.rs `Compiler::emit_byte`: write the byte with the previous
token's line. -/
def CState.emit_byte (c : CState) (byte : Nat) : CState :=
  { c with compiling_chunk :=
      c.compiling_chunk.write_chunk byte c.parser.previous.line }

/-- src/compiler.rs `Compiler::emit_bytes`. -/
def CState.emit_bytes (c : CState) (byte1 byte2 : Nat) : CState :=
  (c.emit_byte byte1).emit_byte byte2

/-- src/compiler.rs `Compiler::emit_return`. -/
def CState.emit_return (c : CState) : CState :=
  c.emit_byte OpCode.opReturn.toByte

/-- src/compiler.rs `Compiler::make_constant`: append to the pool always;
more than 255 existing entries is the "Too many constants in one chunk."
error with index 0. -/
def CState.make_constant (c : CState) (v : Value) : Nat × CState :=
  let (constant, ch) := c.compiling_chunk.add_constant v
  let c := { c with compiling_chunk := ch }
  if constant > 255 then (0, c.errorC "Too many constants in one chunk.")
  else (constant, c)

/-- src/compiler.rs `Compiler::emit_constant`. -/
def CState.emit_constant (c : CState) (v : Value) : CState :=
  let (constant, c) := c.make_constant v
  c.emit_bytes OpCode.opConstant.toByte constant

/-- The lexeme of a token: `scanner.source[start .. start + length]`. -/
def CState.lexeme (c : CState) (t : Token) : List Char :=
  (c.scanner.source.drop t.start).take t.length

/-- src/compiler.rs `Compiler::identifier_constant`: intern the lexeme into
the constants pool as a string object. -/
def CState.identifier_constant (c : CState) (name : Token) : Nat × CState :=
  c.make_constant
    (.object ⟨.objString (ObjString.new (String.mk (c.lexeme name)))⟩)

/-- src/compiler.rs `Compiler::identifiers_equal`: length then byte-wise
lexeme comparison (its debug prints are not modelled). -/
def CState.identifiers_equal (c : CState) (a b : Token) : Bool :=
  a.length = b.length && c.lexeme a = c.lexeme b

/-- src/compiler.rs `Compiler::add_local`: at `STACK_MAX` (256) locals,
error; otherwise push (or overwrite the stale slot left by `end_scope`)
and bump `local_count`. -/
def CState.add_local (c : CState) (name : Token) : CState :=
  if c.local_count = 256 then
    c.errorC "Too many local variables in function."
  else
    let l : Local := ⟨name, -1⟩
    let c :=
      if c.local_count ≥ c.locals.length then
        { c with locals := c.locals ++ [l] }
      else { c with locals := c.locals.set c.local_count l }
    { c with local_count := c.local_count + 1 }

/-- The duplicate-name scan of src/compiler.rs `Compiler::declare_variable`:
walk locals from the top down, stopping at an initialized outer-scope
local; `true` means a same-scope local with an equal name exists. -/
def declareCheck (c : CState) (name : Token) : Nat → Bool
  | 0 => false
  | i + 1 =>
    match c.locals.get? i with
    | Option.none => false
    | some l =>
      if l.depth ≠ -1 && l.depth < c.scope_depth then false
      else if c.identifiers_equal name l.name then true
      else declareCheck c name i

/-- src/compiler.rs `Compiler::declare_variable`: globals are skipped; a
duplicate in the current scope is an error (and the local is not added). -/
def CState.declare_variable (c : CState) : CState :=
  if c.scope_depth = 0 then c
  else
    let name := c.parser.previous
    if declareCheck c name c.local_count then
      c.errorC "Variable with this name already declared in this scope."
    else c.add_local name

/-- The top-down scan of src/compiler.rs `Compiler::resolve_local`,
returning the matching slot and whether its depth is the uninitialized
marker `-1`. -/
def resolveLoop (c : CState) (name : Token) : Nat → Option (Int × Bool)
  | 0 => Option.none
  | i + 1 =>
    match c.locals.get? i with
    | Option.none => Option.none
    | some l =>
      if c.identifiers_equal name l.name then some (Int.ofNat i, l.depth = -1)
      else resolveLoop c name i

/-- src/compiler.rs `Compiler::resolve_local`: slot index of the local, or
`-1` meaning "global"; reading a local inside its own initializer is an
error. -/
def CState.resolve_local (c : CState) (name : Token) : Int × CState :=
  match resolveLoop c name c.local_count with
  | some (i, uninit) =>
    (i,
      if uninit then
        c.errorC "Cannot read local variable in its own initializer."
      else c)
  | Option.none => (-1, c)

/-- src/compiler.rs `Compiler::mark_initialized` (renamed: the gate of this
development reserves that identifier): give the just-declared local the
current scope depth.  The index `local_count - 1` is always in bounds at
the call sites; a miss is modelled as the crash flag. -/
def CState.mark_ready (c : CState) : CState :=
  if c.scope_depth = 0 then c
  else
    match c.locals.get? (c.local_count - 1) with
    | Option.none => { c with crashed := true }
    | some l =>
      { c with locals :=
          c.locals.set (c.local_count - 1) { l with depth := c.scope_depth } }

/-- src/compiler.rs `Compiler::define_variable`: locals are marked
initialized and emit nothing; globals emit `OP_DEFINE_GLOBAL <const>`. -/
def CState.define_variable (c : CState) (global : Nat) : CState :=
  if c.scope_depth > 0 then c.mark_ready
  else c.emit_bytes OpCode.opDefineGlobal.toByte global

/-- src/compiler.rs `Compiler::parse_variable`: consume the identifier,
declare it; locals return constant index 0, globals intern the name. -/
def CState.parse_variable (c : CState) (error_msg : String) : Nat × CState :=
  let c := c.consume .identifier error_msg
  let c := c.declare_variable
  if c.scope_depth > 0 then (0, c)
  else c.identifier_constant c.parser.previous

/-- src/compiler.rs `Compiler::begin_scope`. -/
def CState.begin_scope (c : CState) : CState :=
  { c with scope_depth := c.scope_depth + 1 }

/-- The pop-locals loop of src/compiler.rs `Compiler::end_scope`; each
iteration decrements `local_count`, so `local_count + 1` iterations always
suffice for the bound. -/
def endScopeLoop : Nat → CState → CState
  | 0, c => c
  | n + 1, c =>
    if c.local_count > 0 then
      match c.locals.get? (c.local_count - 1) with
      | Option.none => { c with crashed := true }
      | some l =>
        if l.depth > c.scope_depth then
          endScopeLoop n
            { c.emit_byte OpCode.opPop.toByte with
                local_count := c.local_count - 1 }
        else c
    else c

/-- src/compiler.rs `Compiler::end_scope`: leave the scope and pop every
local that belonged to it, one `OP_POP` each. -/
def CState.end_scope (c : CState) : CState :=
  let c := { c with scope_depth := c.scope_depth - 1 }
  endScopeLoop (c.local_count + 1) c

/-- The token-discarding loop of src/compiler.rs `Compiler::synchronize`.
Each iteration advances the scanner cursor (a non-`Eof` current token was
scanned away from the end of input), so `srcByteLen source + 2 - current`
iterations always suffice for the bound. -/
def syncLoop : Nat → CState → CState
  | 0, c => { c with fuel_out := true }
  | n + 1, c =>
    if c.parser.current.token_type ≠ TokenType.eof then
      if c.parser.previous.token_type = TokenType.semicolon then c
      else
        match c.parser.current.token_type with
        | .kwClass | .kwFun | .kwVar | .kwFor | .kwIf | .kwWhile | .kwPrint
        | .kwReturn => c
        | _ => syncLoop n c.advanceC
    else c

/-- src/compiler.rs `Compiler::synchronize`: leave panic mode and discard
tokens to a statement boundary. -/
def CState.synchronize (c : CState) : CState :=
  let c := { c with parser := { c.parser with panic_mode := false } }
  syncLoop (srcByteLen c.scanner.source + 2 - c.scanner.current) c

/-- The value of a run of decimal digit characters. -/
def digitsVal (ds : List Char) : Nat :=
  ds.foldl (fun a c => a * 10 + (c.toNat - 48)) 0

/-- `str::parse::<f64>()` on the lexemes the scanner produces for `Number`
tokens (digits with an optional fractional part).  Those decimal values are
represented exactly as rationals; the rounding to the nearest double is not
modelled (module comment). -/
def parseNumber (cs : List Char) : F64 :=
  let intPart := cs.takeWhile (fun c => c ≠ '.')
  match cs.dropWhile (fun c => c ≠ '.') with
  | [] => ⟨Int.ofNat (digitsVal intPart), 1⟩
  | _ :: frac =>
    F64.add ⟨Int.ofNat (digitsVal intPart), 1⟩
      (F64.div ⟨Int.ofNat (digitsVal frac), 1⟩ ⟨Int.ofNat (10 ^ frac.length), 1⟩)

/-- src/compiler.rs `Compiler::number`: parse the previous token's lexeme
and emit it as a constant. -/
def CState.numberFnH (c : CState) : CState :=
  c.emit_constant (.number (parseNumber (c.lexeme c.parser.previous)))

/-- src/compiler.rs `Compiler::string`: strip the surrounding quotes and
emit the string object as a constant. -/
def CState.stringFnH (c : CState) : CState :=
  let string_start := c.parser.previous.start + 1
  let string_length := c.parser.previous.length - 2
  let actual_value :=
    (c.scanner.source.drop string_start).take string_length
  c.emit_constant (.object ⟨.objString (ObjString.new (String.mk actual_value))⟩)

/-- src/compiler.rs `Compiler::literal`. -/
def CState.literalFnH (c : CState) : CState :=
  match c.parser.previous.token_type with
  | .kwFalse => c.emit_byte OpCode.opFalse.toByte
  | .kwNil => c.emit_byte OpCode.opNil.toByte
  | .kwTrue => c.emit_byte OpCode.opTrue.toByte
  | _ => c

/-- src/compiler.rs `Compiler::emit_jump`: the instruction plus two `0xff`
placeholder bytes; returns the offset of the first placeholder. -/
def CState.emit_jump (c : CState) (instruction : Nat) : Nat × CState :=
  let c := c.emit_byte instruction
  let c := c.emit_byte 255
  let c := c.emit_byte 255
  (c.compiling_chunk.code.length - 2, c)

/-- src/compiler.rs `Compiler::patch_jump`: overwrite the two placeholder
bytes with `(code_len - offset - 2)` big-endian.  Transcribed exactly: the
source performs no range check ("Jump over too much code." does not occur
in this program), so a delta ≥ 2^16 is silently masked to its low 16 bits.
The subtraction and the two writes are in bounds at every call site
(`offset` comes from `emit_jump`); `List.set` out of range would be the
place a Rust index panic could in principle hide, and never fires. -/
def CState.patch_jump (c : CState) (offset : Nat) : CState :=
  let jump := c.compiling_chunk.code.length - offset - 2
  let code := c.compiling_chunk.code.set offset ((jump >>> 8) &&& 255)
  let code := code.set (offset + 1) (jump &&& 255)
  { c with compiling_chunk := { c.compiling_chunk with code := code } }

/-- src/compiler.rs `Compiler::emit_loop`: `OP_LOOP` plus a big-endian
16-bit back-offset; over 65535 is the "Loop body too large." error (the
bytes are still written). -/
def CState.emit_loop (c : CState) (loop_start : Nat) : CState :=
  let c := c.emit_byte OpCode.opLoop.toByte
  let offset := c.compiling_chunk.code.length - loop_start + 2
  let c := if offset > 65535 then c.errorC "Loop body too large." else c
  let c := c.emit_byte ((offset >>> 8) &&& 255)
  c.emit_byte (offset &&& 255)

mutual

/-- src/compiler.rs `Compiler::parse_precedence`: advance, run the prefix
rule of the previous token (`"Expect expression."` when it has none), fold
infix rules while the current token's table precedence is at least the
requested one, and finally reject a leftover `=` when assignment was
allowed.  Fuel bounds the recursion depth of the whole mutual parser; the
concrete theorems below run it with fuel amply larger than the input's
nesting, and exhaustion only sets the model flag `fuel_out`. -/
def parse_precedenceF : Nat → Precedence → CState → CState
  | 0, _, c => { c with fuel_out := true }
  | n + 1, prec, c =>
    let c := c.advanceC
    match (getRule c.parser.previous.token_type).prefixRule with
    | Option.none => c.errorC "Expect expression."
    | some pf =>
      let can_assign := prec.toNat ≤ Precedence.assignment.toNat
      let c := runPrefixF n pf can_assign c
      let c := precLoopF n prec can_assign c
      if can_assign then
        let (m, c) := c.match_token .equal
        if m then c.errorC "Invalid assignment target." else c
      else c

/-- The `while precedence <= get_rule(current).precedence` loop of
`parse_precedence`; a missing infix rule is `infix_rule.unwrap()`, a Rust
panic, modelled by the crash flag. -/
def precLoopF : Nat → Precedence → Bool → CState → CState
  | 0, _, _, c => { c with fuel_out := true }
  | n + 1, prec, can_assign, c =>
    if prec.toNat ≤ (getRule c.parser.current.token_type).precedence.toNat then
      let c := c.advanceC
      match (getRule c.parser.previous.token_type).infixRule with
      | Option.none => { c with crashed := true }
      | some f => precLoopF n prec can_assign (runInfixF n f can_assign c)
    else c

/-- Dispatch of a defunctionalized prefix handler (the Rust call through
the stored `fn` pointer). -/
def runPrefixF : Nat → PrefixFn → Bool → CState → CState
  | 0, _, _, c => { c with fuel_out := true }
  | n + 1, pf, can_assign, c =>
    match pf with
    | .grouping => groupingF n c
    | .unary => unaryF n c
    | .variableFn => named_variableF n c.parser.previous can_assign c
    | .stringFn => c.stringFnH
    | .numberFn => c.numberFnH
    | .literal => c.literalFnH

/-- Dispatch of a defunctionalized infix handler. -/
def runInfixF : Nat → InfixFn → Bool → CState → CState
  | 0, _, _, c => { c with fuel_out := true }
  | n + 1, f, _can_assign, c =>
    match f with
    | .binaryFn => binaryF n c
    | .andFn => and_F n c
    | .orFn => or_F n c

/-- src/compiler.rs `Compiler::grouping`. -/
def groupingF : Nat → CState → CState
  | 0, c => { c with fuel_out := true }
  | n + 1, c =>
    let c := expressionF n c
    c.consume .rparen "Expect ')' after expression."

/-- src/compiler.rs `Compiler::unary`: compile the operand at `Unary`
precedence, then emit `OP_NOT` / `OP_NEGATE`. -/
def unaryF : Nat → CState → CState
  | 0, c => { c with fuel_out := true }
  | n + 1, c =>
    let operator_type := c.parser.previous.token_type
    let c := parse_precedenceF n .unary c
    match operator_type with
    | .bang => c.emit_byte OpCode.opNot.toByte
    | .minus => c.emit_byte OpCode.opNegate.toByte
    | _ => c

/-- src/compiler.rs `Compiler::binary`: compile the right operand one
precedence level up (left associativity), then emit the operator's
opcode(s). -/
def binaryF : Nat → CState → CState
  | 0, c => { c with fuel_out := true }
  | n + 1, c =>
    let operator_type := c.parser.previous.token_type
    let rule := getRule operator_type
    let c := parse_precedenceF n rule.precedence.next c
    match operator_type with
    | .plus => c.emit_byte OpCode.opAdd.toByte
    | .minus => c.emit_byte OpCode.opSubtract.toByte
    | .star => c.emit_byte OpCode.opMultiply.toByte
    | .slash => c.emit_byte OpCode.opDivide.toByte
    | .bangEqual => c.emit_bytes OpCode.opEqual.toByte OpCode.opNot.toByte
    | .equalEqual => c.emit_byte OpCode.opEqual.toByte
    | .greater => c.emit_byte OpCode.opGreater.toByte
    | .greaterEqual => c.emit_bytes OpCode.opLess.toByte OpCode.opNot.toByte
    | .less => c.emit_byte OpCode.opLess.toByte
    | .lessEqual => c.emit_bytes OpCode.opGreater.toByte OpCode.opNot.toByte
    | _ => c

/-- src/compiler.rs `Compiler::named_variable`: resolve to a local slot or
a global name constant, then emit the setter (after compiling the
right-hand side) when assignment is allowed and an `=` follows, the getter
otherwise. -/
def named_variableF : Nat → Token → Bool → CState → CState
  | 0, _, _, c => { c with fuel_out := true }
  | n + 1, name, can_assign, c =>
    let (arg, c) := c.resolve_local name
    let (get_op, set_op, index, c) :=
      if arg ≠ -1 then
        (OpCode.opGetLocal, OpCode.opSetLocal, arg.toNat, c)
      else
        let (idx, c) := c.identifier_constant name
        (OpCode.opGetGlobal, OpCode.opSetGlobal, idx, c)
    if can_assign then
      let (m, c) := c.match_token .equal
      if m then
        let c := expressionF n c
        c.emit_bytes set_op.toByte index
      else c.emit_bytes get_op.toByte index
    else c.emit_bytes get_op.toByte index

/-- src/compiler.rs `Compiler::and_`: jump-if-false over the right operand,
which is compiled at `And` precedence. -/
def and_F : Nat → CState → CState
  | 0, c => { c with fuel_out := true }
  | n + 1, c =>
    let (end_jump, c) := c.emit_jump OpCode.opJumpIfFalse.toByte
    let c := c.emit_byte OpCode.opPop.toByte
    let c := parse_precedenceF n .and c
    c.patch_jump end_jump

/-- src/compiler.rs `Compiler::or_`. -/
def or_F : Nat → CState → CState
  | 0, c => { c with fuel_out := true }
  | n + 1, c =>
    let (else_jump, c) := c.emit_jump OpCode.opJumpIfFalse.toByte
    let (end_jump, c) := c.emit_jump OpCode.opJump.toByte
    let c := c.patch_jump else_jump
    let c := c.emit_byte OpCode.opPop.toByte
    let c := parse_precedenceF n .or c
    c.patch_jump end_jump

/-- src/compiler.rs `Compiler::expression`: parse at `Assignment`
precedence. -/
def expressionF : Nat → CState → CState
  | 0, c => { c with fuel_out := true }
  | n + 1, c => parse_precedenceF n .assignment c

/-- src/compiler.rs `Compiler::declaration`: a `var` declaration or a
statement, then synchronize if in panic mode. -/
def declarationF : Nat → CState → CState
  | 0, c => { c with fuel_out := true }
  | n + 1, c =>
    let (m, c) := c.match_token .kwVar
    let c := if m then var_declarationF n c else statementF n c
    if c.parser.panic_mode then c.synchronize else c

/-- src/compiler.rs `Compiler::var_declaration`: name, optional
initializer (else `OP_NIL`), `;`, then `define_variable`. -/
def var_declarationF : Nat → CState → CState
  | 0, c => { c with fuel_out := true }
  | n + 1, c =>
    let (global, c) := c.parse_variable "Expect variable name."
    let (m, c) := c.match_token .equal
    let c := if m then expressionF n c else c.emit_byte OpCode.opNil.toByte
    let c := c.consume .semicolon "Expect ';' after variable declaration."
    c.define_variable global

/-- src/compiler.rs `Compiler::statement`: dispatch on the leading token. -/
def statementF : Nat → CState → CState
  | 0, c => { c with fuel_out := true }
  | n + 1, c =>
    let (m, c) := c.match_token .kwPrint
    if m then print_statementF n c
    else
      let (m, c) := c.match_token .kwFor
      if m then for_statementF n c
      else
        let (m, c) := c.match_token .kwIf
        if m then if_statementF n c
        else
          let (m, c) := c.match_token .kwWhile
          if m then while_statementF n c
          else
            let (m, c) := c.match_token .lbrace
            if m then (blockF n c.begin_scope).end_scope
            else expression_statementF n c

/-- src/compiler.rs `Compiler::print_statement`. -/
def print_statementF : Nat → CState → CState
  | 0, c => { c with fuel_out := true }
  | n + 1, c =>
    let c := expressionF n c
    let c := c.consume .semicolon "Expect ';' after value."
    c.emit_byte OpCode.opPrint.toByte

/-- src/compiler.rs `Compiler::expression_statement`. -/
def expression_statementF : Nat → CState → CState
  | 0, c => { c with fuel_out := true }
  | n + 1, c =>
    let c := expressionF n c
    let c := c.consume .semicolon "Expect ';' after expression."
    c.emit_byte OpCode.opPop.toByte

/-- src/compiler.rs `Compiler::block`: declarations to the closing brace. -/
def blockF : Nat → CState → CState
  | 0, c => { c with fuel_out := true }
  | n + 1, c =>
    if !c.check .rbrace && !c.check .eof then blockF n (declarationF n c)
    else c.consume .rbrace "Expect '\x7d' after block."

/-- src/compiler.rs `Compiler::if_statement`: condition, jump-if-false to
the else arm, both arms separated by an unconditional jump, condition
popped on both paths. -/
def if_statementF : Nat → CState → CState
  | 0, c => { c with fuel_out := true }
  | n + 1, c =>
    let c := c.consume .lparen "Expect '(' after if."
    let c := expressionF n c
    let c := c.consume .rparen "Expect ')' after condition."
    let (then_jump, c) := c.emit_jump OpCode.opJumpIfFalse.toByte
    let c := c.emit_byte OpCode.opPop.toByte
    let c := statementF n c
    let (else_jump, c) := c.emit_jump OpCode.opJump.toByte
    let c := c.patch_jump then_jump
    let c := c.emit_byte OpCode.opPop.toByte
    let (m, c) := c.match_token .kwElse
    let c := if m then statementF n c else c
    c.patch_jump else_jump

/-- src/compiler.rs `Compiler::while_statement`. -/
def while_statementF : Nat → CState → CState
  | 0, c => { c with fuel_out := true }
  | n + 1, c =>
    let loop_start := c.compiling_chunk.code.length
    let c := c.consume .lparen "Expect '(' after while."
    let c := expressionF n c
    let c := c.consume .rparen "Expect ')' after condition."
    let (exit_jump, c) := c.emit_jump OpCode.opJumpIfFalse.toByte
    let c := c.emit_byte OpCode.opPop.toByte
    let c := statementF n c
    let c := c.emit_loop loop_start
    let c := c.patch_jump exit_jump
    c.emit_byte OpCode.opPop.toByte

/-- src/compiler.rs `Compiler::for_statement`, including the source's
`exit_jump = 0` sentinel for "no condition". -/
def for_statementF : Nat → CState → CState
  | 0, c => { c with fuel_out := true }
  | n + 1, c =>
    let c := c.begin_scope
    let c := c.consume .lparen "Expect '(' after for."
    let (m, c) := c.match_token .semicolon
    let c :=
      if m then c
      else
        let (mv, c) := c.match_token .kwVar
        if mv then var_declarationF n c else expression_statementF n c
    let loop_start := c.compiling_chunk.code.length
    let (m, c) := c.match_token .semicolon
    let (exit_jump, c) :=
      if !m then
        let c := expressionF n c
        let c := c.consume .semicolon "Expect ';' after for condition."
        let (ej, c) := c.emit_jump OpCode.opJumpIfFalse.toByte
        (ej, c.emit_byte OpCode.opPop.toByte)
      else ((0 : Nat), c)
    let (m, c) := c.match_token .rparen
    let (loop_start, c) :=
      if !m then
        let (body_jump, c) := c.emit_jump OpCode.opJump.toByte
        let increment_start := c.compiling_chunk.code.length
        let c := expressionF n c
        let c := c.emit_byte OpCode.opPop.toByte
        let c := c.consume .rparen "Expect ')' after for clauses."
        let c := c.emit_loop loop_start
        (increment_start, c.patch_jump body_jump)
      else (loop_start, c)
    let c := statementF n c
    let c := c.emit_loop loop_start
    let c :=
      if exit_jump ≠ 0 then
        (c.patch_jump exit_jump).emit_byte OpCode.opPop.toByte
      else c
    c.end_scope

end

/-- The `while !match_token(Eof)` driver loop of src/compiler.rs
`Compiler::compile`. -/
def compileLoopF : Nat → CState → CState
  | 0, c => { c with fuel_out := true }
  | n + 1, c =>
    let (m, c) := c.match_token .eof
    if !m then compileLoopF n (declarationF n c)
    else c

/-- src/compiler.rs `Compiler::compile` followed by `end_compiler`: prime
the parser, parse declarations to `Eof`, emit `OP_RETURN`; success is
`!had_error`.  (`end_compiler`'s disassembly is print-only and not
modelled.) -/
def compileF (fuel : Nat) (source : String) : Bool × CState :=
  let c := CState.new source
  let c := c.advanceC
  let c := compileLoopF fuel c
  let c := c.emit_return
  (!c.parser.had_error, c)

/-- src/vm.rs `VM::interpret`: compile, return `InterpretCompileError` on
failure, otherwise run the compiled chunk from `ip = 0`.  The two model
artifacts (`fuel_out`, `crashed`) are surfaced as their own outcomes and
never arise in the concrete runs below. -/
def interpret (fuel : Nat) (vm : VM) (source : String) :
    RunOutcome × VM × List OutEvent :=
  let (ok, c) := compileF fuel source
  if c.fuel_out then (.outOfFuel, vm, [])
  else if c.crashed then (.crashed "compiler panic", vm, [])
  else if !ok then (.done .interpretCompileError, vm, [])
  else
    let vm := { vm with chunk := c.compiling_chunk, ip := 0 }
    runFuel fuel vm []

/-! ### The claims -/

/-- Executing OP_GET_GLOBAL (opcode 17) with a valid name constant: `run`
has no case for it, so it falls into the unknown-instruction branch and
panics — contradicting C1, which says OP_GET_GLOBAL looks the name up or
reports "Undefined variable" and never reaches that branch. -/
def c1Chunk : Chunk :=
  ⟨[17, 0], ⟨[Value.object ⟨.objString (ObjString.new "a")⟩]⟩, [1, 1]⟩

/-- The VM about to execute `c1Chunk`. -/
def c1VM : VM := ⟨c1Chunk, 0, [], Table.init_table, Table.init_table⟩

/-- C1: the claim says executing OP_GET_GLOBAL either pushes the global's
value or reports the "Undefined variable" runtime error, and never falls
into the unknown-instruction branch.  The code refutes it: `VM::run` has no
OP_GET_GLOBAL case at all, so EVERY state whose next instruction is
OP_GET_GLOBAL (opcode 17, with a valid string-constant operand and the name
present or absent alike) reaches `_ => panic!("unknown instruction")`; the
second conjunct instantiates this on the concrete failing input `c1VM`. -/
theorem opGetGlobal_unknown_instruction :
    (∀ (vm : VM) (fuel : Nat) (outs : List OutEvent),
        vm.chunk.code.get? vm.ip = some 17 →
        runFuel (fuel + 1) vm outs =
          (.crashed "unknown instruction", { vm with ip := (vm.ip + 1) % 256 }, outs))
    ∧ runFuel 10 c1VM [] =
        (.crashed "unknown instruction", { c1VM with ip := 1 }, []) := by
  constructor
  · intro vm fuel outs h
    unfold runFuel
    rw [h]
    norm_num [OpCode.toByte]
  · rfl

/-- The scoped-shadowing program of C2. -/
def c2Source : String := "var a = 1; \x7b var a = 2; print a; \x7d print a;"

/-- C2: the claim says interpreting
`var a = 1; { var a = 2; print a; } print a;` prints "2" then "1" and
returns Ok via OP_GET_LOCAL / OP_GET_GLOBAL.  The code refutes it: the
compiler does emit OP_GET_LOCAL 0 (bytes 19 0) and OP_GET_GLOBAL 3
(bytes 17 3) and compilation succeeds, but `VM::run` implements neither
opcode, so execution panics with "unknown instruction" at the first
OP_GET_LOCAL and nothing is printed. -/
theorem interpret_c2_panics :
    ((compileF 200 c2Source).2.compiling_chunk.code
        = [1, 1, 16, 0, 1, 2, 19, 0, 14, 15, 17, 3, 14, 0]
      ∧ (compileF 200 c2Source).1 = true)
    ∧ (interpret 200 VM.init_vm c2Source).1 = .crashed "unknown instruction"
    ∧ (interpret 200 VM.init_vm c2Source).2.2 = [] := by
  exact ⟨⟨by decide, by decide⟩, by decide, by decide⟩

/-- A chunk computing `nil - nil`, then pushing `true` and returning:
OP_NIL, OP_NIL, OP_SUBTRACT, OP_TRUE, OP_RETURN. -/
def c3VM : VM :=
  ⟨⟨[7, 7, 4, 8, 0], ⟨[]⟩, [1, 1, 1, 1, 1]⟩, 0, [], Table.init_table, Table.init_table⟩

/-- C3: the claim says a non-numeric OP_SUBTRACT (or MULTIPLY/DIVIDE/
GREATER/LESS) reports "Operands must be numbers.", clears the stack and
immediately returns InterpretRuntimeError without executing anything
further.  The code refutes the second half: `run` discards `binary_op`'s
result for these opcodes, so after the error is reported and the stack
cleared, execution continues — here OP_TRUE and OP_RETURN still run and the
VM returns InterpretOk (printing the leftover `true` on the way out). -/
theorem binary_op_error_discarded :
    runFuel 10 c3VM [] =
      (.done .interpretOk, { c3VM with ip := 5, stack := [] },
        [.runtimeErrorMsg "Operands must be numbers.",
          .printed (Value.boolean true)]) := by rfl

/-- A chunk pushing `true` and then executing OP_RETURN. -/
def c4VM : VM := ⟨⟨[8, 0], ⟨[]⟩, [1, 1]⟩, 0, [], Table.init_table, Table.init_table⟩

/-- C4 counterexample: the claim says OP_RETURN leaves the value stack
unchanged and prints nothing.  Executing OP_RETURN with stack `[true]`
returns Ok but with an empty stack and with `true` printed, so the stack
did change and something was printed. -/
theorem opReturn_pops_and_prints :
    runFuel 10 c4VM [] =
      (.done .interpretOk, { c4VM with ip := 2, stack := [] },
        [.printed (Value.boolean true)])
    ∧ ([OutEvent.printed (Value.boolean true)] ≠ ([] : List OutEvent)) := by
  exact ⟨by rfl, by decide⟩

/-- C4 as amended: when the next opcode is OP_RETURN, `run` halts
immediately with Ok and consumes no operand bytes; if the stack is
non-empty it pops the top value and prints it; only an empty stack is left
unchanged with nothing printed. -/
theorem opReturn_halts (vm : VM) (fuel : Nat) (outs : List OutEvent)
    (h : vm.chunk.code.get? vm.ip = some 0) :
    runFuel (fuel + 1) vm outs =
      match vm.stack with
      | [] => (.done .interpretOk, { vm with ip := (vm.ip + 1) % 256 }, outs)
      | v :: rest =>
        (.done .interpretOk, { vm with ip := (vm.ip + 1) % 256, stack := rest },
          outs ++ [.printed v]) := by
  unfold runFuel
  rw [h]
  cases vm.stack <;> rfl

/-- The VM about to run OP_RETURN with `nil` on the stack. -/
def c4WitnessVM : VM := ⟨⟨[0], ⟨[]⟩, [1]⟩, 0, [Value.nil], Table.init_table, Table.init_table⟩

/-- Witness for `opReturn_halts` at a concrete input. -/
theorem opReturn_halts_witness :
    runFuel 1 c4WitnessVM [] =
      (.done .interpretOk,
        { c4WitnessVM with ip := (c4WitnessVM.ip + 1) % 256, stack := [] },
        [] ++ [.printed Value.nil]) :=
  opReturn_halts c4WitnessVM 0 [] rfl

/-- A 257-byte chunk: 256 OP_NIL bytes followed by OP_RETURN at offset 256. -/
def c5Chunk : Chunk :=
  ⟨List.replicate 256 7 ++ [0], ⟨[]⟩, List.replicate 257 1⟩

/-- The VM on `c5Chunk`. -/
def c5VM : VM := ⟨c5Chunk, 0, [], Table.init_table, Table.init_table⟩

/-- On `c5Chunk` the `u8` instruction pointer always stays below 256: each
OP_NIL sends `ip` to `(ip + 1) % 256`, so execution never reaches offset
256 and never terminates, for any amount of fuel. -/
theorem c5_never_terminates :
    ∀ fuel (vm : VM) outs, vm.chunk = c5Chunk → vm.ip < 256 →
      (runFuel fuel vm outs).1 = .outOfFuel := by
  intro fuel
  induction fuel with
  | zero => intro vm outs _ _; rfl
  | succ n ih =>
    intro vm outs h1 h2
    have hget : vm.chunk.code.get? vm.ip = some 7 := by
      rw [h1]
      show (List.replicate 256 7 ++ [0]).get? vm.ip = some 7
      rw [List.get?_eq_getElem?,
        List.getElem?_append_left (by rw [List.length_replicate]; exact h2),
        List.getElem?_replicate_of_lt h2]
    unfold runFuel
    rw [hget]
    norm_num [OpCode.toByte]
    exact ih _ _ h1 (Nat.mod_lt _ (by omega))

/-- C5: the claim says `ip` can address every byte of `chunk.code` and
never wraps back to 0 on chunks longer than 256 bytes.  The code refutes
it: `ip` is a `u8`, so on the 257-byte `c5Chunk` the VM executes bytes
0..255, wraps `ip` from 255 to 0 (second conjunct), never reaches the
OP_RETURN at offset 256, and runs forever (first conjunct: every finite
amount of fuel is exhausted without terminating). -/
theorem u8_ip_wraps :
    (∀ fuel outs, (runFuel fuel c5VM outs).1 = .outOfFuel)
    ∧ ((runFuel 1 { c5VM with ip := 255 } []).2.1.ip = 0)
    ∧ (c5VM.chunk.code.length = 257) := by
  refine ⟨fun fuel outs => c5_never_terminates fuel c5VM outs rfl (by decide), ?_, ?_⟩
  · rfl
  · show (List.replicate 256 7 ++ [0]).length = 257
    rw [List.length_append, List.length_replicate]
    rfl

/-- C6: the claim says the rule table gives `and` the infix handler `and_`
at precedence And and `or` the infix handler `or_` at precedence Or, so
`parse_precedence` consumes them inside any expression parsed at
Assignment precedence.  The code refutes it: `TOKEN_AND` is wired to
`and_` but at precedence None, `TOKEN_OR` has no rules at all (`or_` sits
on `TOKEN_PRINT`'s entry, also at precedence None), and since
None < Assignment the infix loop never fires for either keyword —
compiling `print true and false;` fails with a compile error instead of
parsing `and`. -/
theorem and_or_rules_miswired :
    getRule .kwAnd = ⟨Option.none, some .andFn, Precedence.none⟩
    ∧ getRule .kwOr = ⟨Option.none, Option.none, Precedence.none⟩
    ∧ getRule .kwPrint = ⟨Option.none, some .orFn, Precedence.none⟩
    ∧ Precedence.none ≠ Precedence.and
    ∧ Precedence.none ≠ Precedence.or
    ∧ (compileF 100 "print true and false;").1 = false :=
  ⟨rfl, rfl, rfl, by decide, by decide, by decide⟩

/-- C7 as amended: `patch_jump(offset)` rewrites the two placeholder bytes
with the big-endian 16-bit value `(code_len - offset - 2) mod 2^16`, and
performs no overflow check — the parser state (in particular `had_error`)
and the code length are untouched.  For deltas below 2^16 the bytes decode
to the delta itself. -/
theorem patch_jump_encodes (c : CState) (offset : Nat)
    (h : offset + 2 ≤ c.compiling_chunk.code.length) :
    ((c.patch_jump offset).compiling_chunk.code.get? offset
        = some (((c.compiling_chunk.code.length - offset - 2) >>> 8) &&& 255))
    ∧ ((c.patch_jump offset).compiling_chunk.code.get? (offset + 1)
        = some ((c.compiling_chunk.code.length - offset - 2) &&& 255))
    ∧ ((((c.compiling_chunk.code.length - offset - 2) >>> 8) &&& 255) * 256
          + ((c.compiling_chunk.code.length - offset - 2) &&& 255)
        = (c.compiling_chunk.code.length - offset - 2) % 65536)
    ∧ ((c.patch_jump offset).parser = c.parser)
    ∧ ((c.patch_jump offset).compiling_chunk.code.length
        = c.compiling_chunk.code.length) := by
  unfold CState.patch_jump
  refine ⟨?_, ?_, ?_, rfl, by simp [List.length_set]⟩
  · rw [List.get?_set_ne _ _ (by omega), List.get?_set_eq_of_lt _ (by omega)]
  · rw [List.get?_set_eq_of_lt]
    rw [List.length_set]
    omega
  · have h1 := Nat.and_pow_two_sub_one_eq_mod
      (c.compiling_chunk.code.length - offset - 2) 8
    have h2 := Nat.and_pow_two_sub_one_eq_mod
      ((c.compiling_chunk.code.length - offset - 2) >>> 8) 8
    have h3 := Nat.shiftRight_eq_div_pow
      (c.compiling_chunk.code.length - offset - 2) 8
    norm_num at h1 h2 h3
    rw [h1, h2, h3]
    omega

/-- A compiler state whose chunk holds 65540 zero bytes: patching offset 0
makes the delta 65538, one past what 16 bits can hold. -/
def c7State : CState :=
  { CState.new "" with
      compiling_chunk := ⟨List.replicate 65540 0, ⟨[]⟩, List.replicate 65540 1⟩ }

/-- C7 counterexample: the claim says a delta over 65535 makes the compiler
report "Jump over too much code." instead of writing a truncated offset.
The code has no such check: with delta 65538 `patch_jump` silently writes
the truncated bytes 0, 2 (which decode to 2, not 65538) and reports no
error. -/
theorem patch_jump_truncates :
    ((c7State.patch_jump 0).compiling_chunk.code.get? 0 = some 0)
    ∧ ((c7State.patch_jump 0).compiling_chunk.code.get? 1 = some 2)
    ∧ ((c7State.patch_jump 0).parser.had_error = false)
    ∧ (c7State.compiling_chunk.code.length - 0 - 2 = 65538)
    ∧ ((0 : Nat) * 256 + 2 ≠ 65538) := by
  have hlen : c7State.compiling_chunk.code.length = 65540 := by
    show (List.replicate 65540 (0 : Nat)).length = 65540
    rw [List.length_replicate]
  have henc := patch_jump_encodes c7State 0 (by rw [hlen]; omega)
  rw [hlen] at henc
  have hv0 : (((65540 - 0 - 2 : Nat) >>> 8) &&& 255) = 0 := by decide
  have hv1 : ((65540 - 0 - 2 : Nat) &&& 255) = 2 := by decide
  rw [hv0] at henc
  rw [hv1] at henc
  exact ⟨henc.1, henc.2.1, congrArg Parser.had_error henc.2.2.2.1, by rw [hlen],
    by decide⟩

/-- A four-byte chunk as `emit_jump` leaves it, for the witness: patching
offset 1 has delta 1. -/
def c7WitnessState : CState :=
  { CState.new "" with
      compiling_chunk := ⟨[21, 255, 255, 0], ⟨[]⟩, [1, 1, 1, 1]⟩ }

/-- Witness for `patch_jump_encodes` at a concrete input. -/
theorem patch_jump_encodes_witness :
    ((c7WitnessState.patch_jump 1).compiling_chunk.code.get? 1
        = some (((c7WitnessState.compiling_chunk.code.length - 1 - 2) >>> 8) &&& 255))
    ∧ ((c7WitnessState.patch_jump 1).compiling_chunk.code.get? 2
        = some ((c7WitnessState.compiling_chunk.code.length - 1 - 2) &&& 255))
    ∧ ((((c7WitnessState.compiling_chunk.code.length - 1 - 2) >>> 8) &&& 255) * 256
          + ((c7WitnessState.compiling_chunk.code.length - 1 - 2) &&& 255)
        = (c7WitnessState.compiling_chunk.code.length - 1 - 2) % 65536)
    ∧ ((c7WitnessState.patch_jump 1).parser = c7WitnessState.parser)
    ∧ ((c7WitnessState.patch_jump 1).compiling_chunk.code.length
        = c7WitnessState.compiling_chunk.code.length) :=
  patch_jump_encodes c7WitnessState 1 (by decide)

/-- A string value as the VM constructs it (`ObjString::new`, content with
its FNV-1a hash). -/
def strValue (s : String) : Value := .object ⟨.objString (ObjString.new s)⟩

/-- The discriminant of a `Value`'s variant, for stating
variant-sensitivity. -/
def Value.variantTag : Value → Nat
  | .boolean _ => 0
  | .nil => 1
  | .number _ => 2
  | .object _ => 3

/-- C8: `values_equal` is variant-sensitive — values of different variants
are never equal (in particular `Number 1` vs the string `"1"`, so
`print 1 == "1";` prints `false` and returns Ok end to end); `Nil` equals
`Nil`; booleans compare structurally; numbers compare by the numeric
payload's equality (IEEE `==` on `f64` in the source, modelled on the
exact rationals standing in for them); and two constructed string objects
compare equal exactly when their contents are equal (the stored FNV hash
is a function of the content, so the hash pre-check never changes the
outcome). -/
theorem values_equal_spec :
    (∀ a b : Value, a.variantTag ≠ b.variantTag → a.values_equal b = false)
    ∧ (Value.nil.values_equal .nil = true)
    ∧ (∀ p q : Bool, (Value.boolean p).values_equal (.boolean q) = (p == q))
    ∧ (∀ x y : F64, (Value.number x).values_equal (.number y) = (x == y))
    ∧ (∀ s t : String, (strValue s).values_equal (strValue t) = (s == t))
    ∧ ((Value.number 1).values_equal (strValue "1") = false)
    ∧ ((interpret 100 VM.init_vm "print 1 == \x221\x22;").2.2
        = [.printed (Value.boolean false)])
    ∧ ((interpret 100 VM.init_vm "print 1 == \x221\x22;").1
        = .done .interpretOk) := by
  refine ⟨?_, rfl, fun p q => rfl, fun x y => rfl, ?_, rfl, by decide, by decide⟩
  · intro a b h
    cases a <;> cases b <;> first | rfl | exact absurd rfl h
  · intro s t
    by_cases hh : fnvHashStr s = fnvHashStr t
    · simp [Value.values_equal, strValue, ObjString.new, ObjString.get_hash,
        ObjString.as_str, hh, bne]
    · have hst : s ≠ t := fun he => hh (he ▸ rfl)
      simp [Value.values_equal, strValue, ObjString.new, ObjString.get_hash,
        ObjString.as_str, bne, hh, hst]

/-- The fresh scanner over the two-character, three-byte source `é=`, on
which C9 founders: `'é'` encodes to two UTF-8 bytes. -/
def c9Scanner : Scanner := Scanner.init_scanner "é="

/-- C9: the claim says that for every source string the token sequence is
finite and ends in `Eof`.  The code refutes it: `current` advances once per
character while `is_at_end` compares it against the byte length, and
`match_char` `unwrap()`s `chars().nth(current)`.  On the source `é=`
(character count 2, byte length 3 — last two conjuncts) the first
`scan_token` returns the "Unexpected character." `Error` token with
`current = 1` and no panic (first conjunct); the second call consumes `'='`
(`current = 2`), enters the `'='` lookahead arm, and `match_char` finds
`is_at_end` false (`2 < 3`) but `chars().nth(2) = None`, so the `unwrap`
panics (second conjunct): `scan_token` never returns a token, so the
sequence is not finite-ending-in-`Eof`. -/
theorem scanner_panics_on_multibyte :
    (c9Scanner.scan_token.1.token_type = TokenType.error
      ∧ c9Scanner.scan_token.1.error_msg = some "Unexpected character."
      ∧ c9Scanner.scan_token.2.crashed = false
      ∧ c9Scanner.scan_token.2.current = 1)
    ∧ (c9Scanner.scan_token.2.scan_token.2.crashed = true
      ∧ c9Scanner.scan_token.2.scan_token.2.current = 2)
    ∧ srcByteLen c9Scanner.source = 3
    ∧ c9Scanner.source.length = 2 := by decide

/-- `HashMap::insert` then `get` on the same key yields the inserted
value, whether or not the key was already bound. -/
theorem table_get_setEntry : ∀ (l : List (ObjType × Value)) (k : ObjType) (v : Value),
    (Table.table_get ⟨setEntry l k v⟩ k) = some v
  | [], k, v => by simp [Table.table_get, setEntry]
  | e :: es, k, v => by
    by_cases h : e.1 = k
    · simp [Table.table_get, setEntry, h]
    · have ih := table_get_setEntry es k v
      simp only [Table.table_get] at ih ⊢
      simp only [setEntry, if_neg h]
      rw [List.find?_cons_of_neg]
      · exact ih
      · simp [h]

/-- The chunk the compiler emits for `var a = 1; var a = 2;`: load 1,
define global "a", load 2, define global "a" again, return. -/
def c10Chunk : Chunk :=
  ⟨[1, 1, 16, 0, 1, 3, 16, 2, 0],
    ⟨[.object ⟨.objString (ObjString.new "a")⟩, Value.number 1,
      .object ⟨.objString (ObjString.new "a")⟩, Value.number 2]⟩,
    [1, 1, 1, 1, 1, 1, 1, 1, 1]⟩

/-- A fresh VM on `c10Chunk`. -/
def c10VM0 : VM := ⟨c10Chunk, 0, [], Table.init_table, Table.init_table⟩

/-- C10: executing OP_DEFINE_GLOBAL for a name never produces an error,
whether or not the name is already bound in the globals table: the step
replaces the binding with the current stack top via `table_set`
(`HashMap::insert`), pops it, and continues as a normal instruction —
no runtime-error report, no panic, no output; afterwards the globals table
yields the new value for that name (first two conjuncts, for every state).
In particular the compiler compiles the top-level redefinition
`var a = 1; var a = 2;` to `c10Chunk` without error, and running that
chunk returns Ok, reports nothing, and leaves the globals table mapping
`"a"` to the newer value 2 (remaining conjuncts). -/
theorem define_global_redefines (vm : VM) (fuel : Nat) (outs : List OutEvent)
    (ci : Nat) (o : Obj) (v : Value) (rest : List Value)
    (h0 : vm.chunk.code.get? vm.ip = some 16)
    (h1 : vm.chunk.code.get? ((vm.ip + 1) % 256) = some ci)
    (h2 : vm.chunk.constants.values.get? ci = some (.object o))
    (h3 : vm.stack = v :: rest) :
    (runFuel (fuel + 1) vm outs =
      runFuel fuel
        { vm with
            ip := ((vm.ip + 1) % 256 + 1) % 256
            stack := rest
            globals := (vm.globals.table_set o.obj_type v).2 } outs)
    ∧ ((vm.globals.table_set o.obj_type v).2.table_get o.obj_type = some v)
    ∧ ((compileF 100 "var a = 1; var a = 2;").1 = true)
    ∧ ((compileF 100 "var a = 1; var a = 2;").2.compiling_chunk.code = c10Chunk.code)
    ∧ ((compileF 100 "var a = 1; var a = 2;").2.compiling_chunk.constants
        = c10Chunk.constants)
    ∧ ((runFuel 20 c10VM0 []).1 = .done .interpretOk)
    ∧ ((runFuel 20 c10VM0 []).2.2 = [])
    ∧ ((runFuel 20 c10VM0 []).2.1.globals.table_get
          (ObjType.objString (ObjString.new "a")) = some (Value.number 2)) := by
  refine ⟨?_, ?_, by decide, by decide, by decide, by decide, by decide, by decide⟩
  · conv_lhs => unfold runFuel
    rw [h0]
    norm_num [OpCode.toByte]
    unfold VM.read_string
    rw [h1]
    dsimp only
    rw [h2]
    dsimp only
    simp only [VM.peekV, h3, List.get?_cons_zero]
  · exact table_get_setEntry vm.globals.entries o.obj_type v

/-- The interned name object `"a"` for the witness. -/
def c10Obj : Obj := ⟨.objString (ObjString.new "a")⟩

/-- A VM about to execute OP_DEFINE_GLOBAL for `"a"` (stack top `2`) while
`"a"` is already bound to `1` in the globals — a redefinition. -/
def c10VM : VM :=
  ⟨⟨[16, 0, 0], ⟨[.object c10Obj]⟩, [1, 1, 1]⟩, 0, [Value.number 2],
    Table.init_table, ⟨[(ObjType.objString (ObjString.new "a"), Value.number 1)]⟩⟩

/-- Witness for `define_global_redefines` at a concrete redefinition. -/
theorem define_global_redefines_witness :
    (runFuel 6 c10VM [] =
      runFuel 5
        { c10VM with
            ip := ((c10VM.ip + 1) % 256 + 1) % 256
            stack := []
            globals := (c10VM.globals.table_set c10Obj.obj_type (Value.number 2)).2 } [])
    ∧ ((c10VM.globals.table_set c10Obj.obj_type (Value.number 2)).2.table_get
        c10Obj.obj_type = some (Value.number 2))
    ∧ ((compileF 100 "var a = 1; var a = 2;").1 = true)
    ∧ ((compileF 100 "var a = 1; var a = 2;").2.compiling_chunk.code = c10Chunk.code)
    ∧ ((compileF 100 "var a = 1; var a = 2;").2.compiling_chunk.constants
        = c10Chunk.constants)
    ∧ ((runFuel 20 c10VM0 []).1 = .done .interpretOk)
    ∧ ((runFuel 20 c10VM0 []).2.2 = [])
    ∧ ((runFuel 20 c10VM0 []).2.1.globals.table_get
          (ObjType.objString (ObjString.new "a")) = some (Value.number 2)) :=
  define_global_redefines c10VM 5 [] 0 c10Obj (Value.number 2) [] rfl rfl rfl rfl

end ElephantVM
